import Mathlib

/-!
Verification development for the CPC_server_collectorSYS analysis service.

This file gives a shallow embedding, in Lean 4, of the parts of the Python
source that the verified properties talk about:

* `a_sub_system/analysis_service/processors/step1_slicer.py` (audio slicing),
* `a_sub_system/analysis_service/processors/step2_leaf.py` (feature extraction),
* `a_sub_system/analysis_service/processors/step3_classifier.py` (classification),
* `a_sub_system/analysis_service/utils/mongodb_handler.py` (persistence layer),
* `a_sub_system/analysis_service/analysis_pipeline.py` (pipeline orchestration),
* `a_sub_system/batch_delete/batch_delete.py` (bulk-deletion CLI).

Python floats are modelled as rationals (`ℚ`); every numeric value that the
theorems below touch is exactly representable, and the scaled values fed to
Python's `round` are integers, so the choice of tie-breaking convention is
irrelevant on those inputs.  Python dict keys that the code tests for
presence are modelled as `Option` fields (`none` = key absent).
-/

/-! ## Step 1: audio slicing (`processors/step1_slicer.py`) -/

/-- Python's `round(x, 6)` on the rationals that arise here (all exact). -/
def round6 (q : ℚ) : ℚ := (round (q * 1000000) : ℚ) / 1000000

/-- Python's `round(x, 3)` on the rationals that arise here (all exact). -/
def round3 (q : ℚ) : ℚ := (round (q * 1000) : ℚ) / 1000

/-- Python's `round(x, 2)` on the rationals that arise here (all exact). -/
def round2 (q : ℚ) : ℚ := (round (q * 100) : ℚ) / 100

/-- `AUDIO_CONFIG` from `analysis_service/config.py` (lines 17-24). -/
structure AudioConfig where
  slice_duration : ℚ
  slice_interval : ℚ
  channels : List ℕ
  sample_rate : ℕ
  min_segment_duration : ℚ
deriving Repr, DecidableEq

/-- The configured values of `AUDIO_CONFIG` in `analysis_service/config.py`. -/
def AUDIO_CONFIG : AudioConfig :=
  { slice_duration := 16/100
    slice_interval := 20/100
    channels := [1]
    sample_rate := 16000
    min_segment_duration := 5/100 }

/-- One slice record as built by `AudioSlicer._perform_slicing`
(`step1_slicer.py` lines 107-115).  `stop` models the dict key `end`
(a Lean keyword). -/
structure Segment where
  selec : ℕ
  channel : ℕ
  start : ℚ
  stop : ℚ
  bottom_freq : ℚ
  top_freq : ℚ
deriving Repr, DecidableEq

/-- The sliding-window loop of `_perform_slicing` (`step1_slicer.py` lines
100-123) over one channel: `startSample` advances by `intervalSamples` while
`startSample + sliceSamples ≤ chanLen`; a segment is kept when its duration
reaches the configured `min_segment_duration` (`minDur`, the only config
entry the loop body reads), and `selec` counts only kept segments.
The loop body never changes `chanLen`, so `fuel ≥` the iteration count makes
the recursion agree with the Python `while`; callers pass `chanLen + 1`,
enough whenever `intervalSamples ≥ 1` (it is 3200 here). -/
def sliceLoop (minDur : ℚ) (sr : ℕ) (chan chanLen sliceSamples intervalSamples : ℕ) :
    ℕ → ℕ → ℕ → List Segment
  | 0, _, _ => []
  | fuel + 1, startSample, selecCount =>
    if startSample + sliceSamples ≤ chanLen then
      let endSample := startSample + sliceSamples
      let startTime : ℚ := (startSample : ℚ) / (sr : ℚ)
      let endTime : ℚ := (endSample : ℚ) / (sr : ℚ)
      if minDur ≤ endTime - startTime then
        { selec := selecCount
          channel := chan
          start := round6 startTime
          stop := round6 endTime
          bottom_freq := 2/1000
          top_freq := round3 ((sr : ℚ) / 2 / 1000) } ::
          sliceLoop minDur sr chan chanLen sliceSamples intervalSamples fuel
            (startSample + intervalSamples) (selecCount + 1)
      else
        sliceLoop minDur sr chan chanLen sliceSamples intervalSamples fuel
          (startSample + intervalSamples) selecCount
    else []

/-- `AudioSlicer._perform_slicing` (`step1_slicer.py` lines 72-129).  The
audio array is described by its shape: `numChannels` rows of `samples`
samples each.  `int(duration * sr)` truncates toward zero; on the positive
values here that is the floor.  The per-channel loop runs at most
`samples / intervalSamples + 2` iterations whenever `intervalSamples ≥ 1`
(the start sample grows by `intervalSamples` each round and the loop stops
once it passes `samples`), so that fuel makes `sliceLoop` agree with the
Python `while`. -/
def performSlicing (cfg : AudioConfig) (numChannels samples sr : ℕ) : List Segment :=
  let sliceSamples := (⌊cfg.slice_duration * (sr : ℚ)⌋).toNat
  let intervalSamples := (⌊cfg.slice_interval * (sr : ℚ)⌋).toNat
  let channels := if cfg.channels = [] then List.range numChannels else cfg.channels
  (channels.map fun chan =>
    if numChannels ≤ chan then []
    else sliceLoop cfg.min_segment_duration sr chan samples sliceSamples intervalSamples
      (samples / intervalSamples + 2) 0 1).flatten

/-- The five segments `_perform_slicing` produces on channel `c` of a
1.0-second clip at 16 kHz with the configured slicing parameters. -/
def fiveSegments (c : ℕ) : List Segment :=
  [ { selec := 1, channel := c, start := 0,      stop := 16/100,  bottom_freq := 2/1000, top_freq := 8 },
    { selec := 2, channel := c, start := 20/100, stop := 36/100,  bottom_freq := 2/1000, top_freq := 8 },
    { selec := 3, channel := c, start := 40/100, stop := 56/100,  bottom_freq := 2/1000, top_freq := 8 },
    { selec := 4, channel := c, start := 60/100, stop := 76/100,  bottom_freq := 2/1000, top_freq := 8 },
    { selec := 5, channel := c, start := 80/100, stop := 96/100,  bottom_freq := 2/1000, top_freq := 8 } ]

/-! ## Step 3: classification (`processors/step3_classifier.py`) -/

/-- `CLASSIFICATION_CONFIG` from `analysis_service/config.py` (lines 63-71). -/
structure ClassificationConfig where
  method : String
  classes : List String
  normal_probability : ℚ
  model_path : String
  threshold : ℚ
deriving Repr, DecidableEq

/-- The configured values of `CLASSIFICATION_CONFIG`. -/
def CLASSIFICATION_CONFIG : ClassificationConfig :=
  { method := "rf_model"
    classes := ["normal", "abnormal"]
    normal_probability := 7/10
    model_path := "models"
    threshold := 5/10 }

/-- A per-segment prediction dict as built by `AudioClassifier.classify` /
`_random_classify` and consumed by `_calculate_summary`.  `confidence` is
`none` when the dict lacks the key (`_calculate_summary` guards on
`'confidence' in p`); `errorMsg` is `none` when the dict lacks the `error`
key; `methodTag` models the optional `method` key. -/
structure Prediction where
  segment_id : ℤ
  prediction : String
  confidence : Option ℚ
  errorMsg : Option String
  methodTag : Option String
deriving Repr, DecidableEq

/-- One entry of the `features_data` list handed to `classify`: a dict with
`segment_id` and `feature_vector` keys.  `feature_vector := none` models a
missing or `None` vector (`feature_data.get('feature_vector') is None`),
and `segment_id := none` a missing key (`.get('segment_id', -1)`). -/
structure FeatureData where
  segment_id : Option ℤ
  feature_vector : Option (List ℚ)
deriving Repr, DecidableEq

/-- `AudioClassifier._random_classify` (`step3_classifier.py` lines 103-123).
`r1` models the `np.random.random()` draw and `r2` the unit draw behind
`np.random.uniform(0.6, 0.95) = 0.6 + r2 * (0.95 - 0.6)` with `r2 ∈ [0,1)`;
the label is `normal` exactly when `r1 <` the configured normal
probability. -/
def randomClassify (cfg : ClassificationConfig) (fd : FeatureData) (r1 r2 : ℚ) : Prediction :=
  { segment_id := fd.segment_id.getD (-1)
    prediction := if r1 < cfg.normal_probability then "normal" else "abnormal"
    confidence := some (6/10 + r2 * (95/100 - 6/10))
    errorMsg := none
    methodTag := some "random" }

/-- The invalid-feature prediction built in `classify`
(`step3_classifier.py` lines 62-68). -/
def invalidFeaturePrediction (fd : FeatureData) : Prediction :=
  { segment_id := fd.segment_id.getD (-1)
    prediction := "unknown"
    confidence := some 0
    errorMsg := some "invalid feature"
    methodTag := none }

/-- The per-segment loop of `classify` (`step3_classifier.py` lines 60-77).
`draws : ℕ → ℚ × ℚ` supplies the source of randomness: the `k`-th pair of
draws that `np.random` would produce, consumed in order and only for
segments whose feature vector is present (missing vectors take the
invalid-feature branch without drawing).  Both arms of the
`if self.method == 'random'` dispatch call `_random_classify`. -/
def classifyLoop (cfg : ClassificationConfig) (draws : ℕ → ℚ × ℚ) :
    List FeatureData → ℕ → List Prediction
  | [], _ => []
  | fd :: rest, k =>
    match fd.feature_vector with
    | none => invalidFeaturePrediction fd :: classifyLoop cfg draws rest k
    | some _ =>
      let r := draws k
      (if cfg.method = "random" then randomClassify cfg fd r.1 r.2
       else randomClassify cfg fd r.1 r.2) :: classifyLoop cfg draws rest (k + 1)

/-- `np.mean` over a list of rationals; `none` models the NaN that `np.mean`
returns on an empty list. -/
def npMean (l : List ℚ) : Option ℚ :=
  if l = [] then none else some (l.sum / (l.length : ℚ))

/-- The summary dict built by `AudioClassifier._calculate_summary`
(`step3_classifier.py` lines 139-194).  `average_confidence := none` models
both the `total == 0` branch (which omits the key) and a NaN mean. -/
structure ClassSummary where
  total_segments : ℕ
  normal_count : ℕ
  abnormal_count : ℕ
  unknown_count : ℕ
  normal_percentage : ℚ
  abnormal_percentage : ℚ
  final_prediction : String
  average_confidence : Option ℚ
deriving Repr, DecidableEq

/-- `AudioClassifier._calculate_summary` (`step3_classifier.py` lines
139-194): per-label counts, percentages of the total, a majority vote
between `normal` and `abnormal` (`uncertain` on a tie, `unknown` only for
an empty prediction list), and the mean confidence over the predictions
that carry a `confidence` key. -/
def calculateSummary (predictions : List Prediction) : ClassSummary :=
  let total := predictions.length
  if total = 0 then
    { total_segments := 0
      normal_count := 0
      abnormal_count := 0
      unknown_count := 0
      normal_percentage := 0
      abnormal_percentage := 0
      final_prediction := "unknown"
      average_confidence := none }
  else
    let normal_count := predictions.countP (·.prediction = "normal")
    let abnormal_count := predictions.countP (·.prediction = "abnormal")
    let unknown_count := predictions.countP (·.prediction = "unknown")
    let normal_percentage := ((normal_count : ℚ) / (total : ℚ)) * 100
    let abnormal_percentage := ((abnormal_count : ℚ) / (total : ℚ)) * 100
    let final_prediction :=
      if normal_count < abnormal_count then "abnormal"
      else if abnormal_count < normal_count then "normal"
      else "uncertain"
    { total_segments := total
      normal_count := normal_count
      abnormal_count := abnormal_count
      unknown_count := unknown_count
      normal_percentage := round2 normal_percentage
      abnormal_percentage := round2 abnormal_percentage
      final_prediction := final_prediction
      average_confidence :=
        (npMean ((predictions.filterMap (·.confidence)))).map round3 }

/-- The dict `classify` returns on its success path (`step3_classifier.py`
lines 79-90): exactly the keys `predictions`, `summary` and `method`. -/
structure ClassifyReturn where
  predictions : List Prediction
  summary : ClassSummary
  method : String
deriving Repr, DecidableEq

/-- `AudioClassifier.classify` (`step3_classifier.py` lines 33-101) on its
non-exception path. -/
def classify (cfg : ClassificationConfig) (draws : ℕ → ℚ × ℚ)
    (features_data : List FeatureData) : ClassifyReturn :=
  let predictions := classifyLoop cfg draws features_data 0
  { predictions := predictions
    summary := calculateSummary predictions
    method := cfg.method }

/-! ## `analyze_features` container (`utils/mongodb_handler.py`)

The container code manipulates nested dicts.  Key presence is modelled with
`Option`: an outer `Option` layer means "the key may be absent", an inner
one "the stored value may be `None`/null".  Step payloads are opaque (a
type parameter `α`), timestamps are opaque naturals, and the small dicts
whose only observed property is truthiness (`analysis_summary`,
`analysis_context`) are association lists, truthy iff non-empty. -/

/-- One run dict of the shape `_wrap_legacy_analyze_features` /
`start_analysis_run` build (`mongodb_handler.py` lines 138-150, 216-226).
`run_index := none` models a run dict lacking the key (normalised by
`_merge_container_defaults`). -/
structure RunDoc (α : Type) where
  analysis_id : String
  run_index : Option ℕ
  analysis_summary : Option (List (String × String))
  analysis_context : List (String × String)
  steps : List α
  requested_at : Option ℕ
  started_at : Option ℕ
  completed_at : Option ℕ
  error_message : Option String
deriving Repr, DecidableEq

/-- The fully-populated container `build_analysis_container` returns
(`mongodb_handler.py` lines 13-24) and that `_merge_container_defaults`
produces. -/
structure Container (α : Type) where
  active_analysis_id : Option String
  latest_analysis_id : Option String
  latest_summary_index : Option ℕ
  total_runs : ℕ
  last_requested_at : Option ℕ
  last_started_at : Option ℕ
  last_completed_at : Option ℕ
  runs : List (RunDoc α)
deriving Repr, DecidableEq

/-- `build_analysis_container` (`mongodb_handler.py` lines 13-24). -/
def buildAnalysisContainer (α : Type) : Container α :=
  { active_analysis_id := none
    latest_analysis_id := none
    latest_summary_index := none
    total_runs := 0
    last_requested_at := none
    last_started_at := none
    last_completed_at := none
    runs := [] }

/-- The legacy `metadata` sub-dict that `_merge_container_defaults` folds
into the container (`mongodb_handler.py` lines 85-91); all keys optional. -/
structure LegacyMetadata where
  total_runs : Option ℕ
  last_requested_at : Option ℕ
  last_started_at : Option ℕ
  last_completed_at : Option ℕ
deriving Repr, DecidableEq

/-- An `analyze_features` value that passed `isinstance(container, dict)`:
each top-level key may be absent (outer `Option`); `metadata := some _`
means the key is present *and* holds a dict; `runs := some none` means the
key is present but its value is not a list. -/
structure RawContainer (α : Type) where
  active_analysis_id : Option (Option String)
  latest_analysis_id : Option (Option String)
  latest_summary_index : Option (Option ℕ)
  metadata : Option LegacyMetadata
  total_runs : Option ℕ
  last_requested_at : Option (Option ℕ)
  last_started_at : Option (Option ℕ)
  last_completed_at : Option (Option ℕ)
  runs : Option (Option (List (RunDoc α)))
deriving Repr, DecidableEq

/-- The dict `_merge_container_defaults` (and `ensure_analysis_container`)
writes back: every key present, no legacy `metadata` key. -/
def Container.toRaw {α : Type} (m : Container α) : RawContainer α :=
  { active_analysis_id := some m.active_analysis_id
    latest_analysis_id := some m.latest_analysis_id
    latest_summary_index := some m.latest_summary_index
    metadata := none
    total_runs := some m.total_runs
    last_requested_at := some m.last_requested_at
    last_started_at := some m.last_started_at
    last_completed_at := some m.last_completed_at
    runs := some (some m.runs) }

/-- The run-normalisation loop of `_merge_container_defaults`
(`mongodb_handler.py` lines 100-108): 1-based enumeration filling in a
missing `run_index`; the boolean reports whether any run was changed. -/
def normalizeRuns {α : Type} : List (RunDoc α) → ℕ → List (RunDoc α) × Bool
  | [], _ => ([], false)
  | r :: rest, idx =>
    let hd : RunDoc α × Bool :=
      match r.run_index with
      | none => ({ r with run_index := some idx }, true)
      | some _ => (r, false)
    let tl := normalizeRuns rest (idx + 1)
    (hd.1 :: tl.1, hd.2 || tl.2)

/-- The trailing scan of `_merge_container_defaults` (`mongodb_handler.py`
lines 118-123): walking the runs in reverse for the first one whose
`analysis_summary` is truthy; `some r` is the run found. -/
def lastRunWithSummary {α : Type} (runs : List (RunDoc α)) : Option (RunDoc α) :=
  runs.reverse.find? fun r => !(r.analysis_summary.getD []).isEmpty

/-- `MongoDBHandler._merge_container_defaults` (`mongodb_handler.py` lines
67-127): starts from `build_analysis_container()`, copies every present
key, folds a legacy `metadata` sub-dict if present, normalises run
indices, backfills `total_runs` and `latest_summary_index`, and reports
whether anything had to change (`needs_update`). -/
def mergeContainerDefaults {α : Type} (c : RawContainer α) : Container α × Bool :=
  let d := buildAnalysisContainer α
  let active := c.active_analysis_id.getD d.active_analysis_id
  let latest := c.latest_analysis_id.getD d.latest_analysis_id
  let latestIdx := c.latest_summary_index.getD d.latest_summary_index
  let uIds := c.active_analysis_id.isNone || c.latest_analysis_id.isNone ||
    c.latest_summary_index.isNone
  let metaPart : (ℕ × Option ℕ × Option ℕ × Option ℕ) × Bool :=
    match c.metadata with
    | some md =>
      ((md.total_runs.getD d.total_runs, md.last_requested_at, md.last_started_at,
        md.last_completed_at), true)
    | none =>
      ((c.total_runs.getD d.total_runs, c.last_requested_at.getD d.last_requested_at,
        c.last_started_at.getD d.last_started_at,
        c.last_completed_at.getD d.last_completed_at),
        c.total_runs.isNone || c.last_requested_at.isNone || c.last_started_at.isNone ||
          c.last_completed_at.isNone)
  let runsPart : List (RunDoc α) × Bool :=
    match c.runs with
    | some (some rs) => normalizeRuns rs 1
    | _ => ([], true)
  let totalRuns := (metaPart.1).1
  let (totalRuns, uTotal) :=
    if totalRuns = 0 ∧ runsPart.1.isEmpty = false then (runsPart.1.length, true)
    else (totalRuns, false)
  let (latestIdx, uLatest) :=
    if latestIdx = none ∧ runsPart.1.isEmpty = false then
      match lastRunWithSummary runsPart.1 with
      | some r => (r.run_index, true)
      | none => (latestIdx, false)
    else (latestIdx, false)
  ({ active_analysis_id := active
     latest_analysis_id := latest
     latest_summary_index := latestIdx
     total_runs := totalRuns
     last_requested_at := (metaPart.1).2.1
     last_started_at := (metaPart.1).2.2.1
     last_completed_at := (metaPart.1).2.2.2
     runs := runsPart.1 },
   uIds || metaPart.2 || runsPart.2 || uTotal || uLatest)

/-- The possible shapes of a record's `analyze_features` value as the
Python type tests see them: absent, a legacy list of Steps, a dict, or a
value of any other type. -/
inductive AFValue (α : Type)
  | missing
  | steps (xs : List α)
  | dict (c : RawContainer α)
  | other
deriving Repr, DecidableEq

/-- The fields of a recording document that the container code reads.
`AnalyzeUUID` is modelled as always present (the fallback
`record.get('AnalyzeUUID', uuid4().hex)` draws a fresh uuid otherwise);
`analysis_summary := none` covers both an absent key and a `None` value
(both make `record.get('analysis_summary', {}) or {}` yield `{}`). -/
structure RecordView (α : Type) where
  AnalyzeUUID : String
  analysis_summary : Option (List (String × String))
  created_at : Option ℕ
  processing_started_at : Option ℕ
  updated_at : Option ℕ
  error_message : Option String
  analyze_features : AFValue α
deriving Repr, DecidableEq

/-- `MongoDBHandler._wrap_legacy_analyze_features` (`mongodb_handler.py`
lines 129-158): a non-empty legacy list becomes one synthetic run with id
`legacy-<AnalyzeUUID>` and `run_index` 1 carrying the original steps;
anything else yields the default empty container. -/
def wrapLegacyAnalyzeFeatures {α : Type} (rec : RecordView α) (lv : AFValue α) : Container α :=
  match lv with
  | .steps (x :: xs) =>
    let legacyId := "legacy-" ++ rec.AnalyzeUUID
    let summary := rec.analysis_summary.getD []
    let legacyRun : RunDoc α :=
      { analysis_id := legacyId
        run_index := some 1
        analysis_summary := some summary
        analysis_context := [("imported_from", "legacy")]
        steps := x :: xs
        requested_at := rec.created_at
        started_at :=
          match rec.processing_started_at with
          | some t => some t
          | none => rec.created_at
        completed_at := rec.updated_at
        error_message := rec.error_message }
    { active_analysis_id := none
      latest_analysis_id := some legacyId
      latest_summary_index := some 1
      total_runs := 1
      last_requested_at := legacyRun.requested_at
      last_started_at := legacyRun.started_at
      last_completed_at := legacyRun.completed_at
      runs := [legacyRun] }
  | _ => buildAnalysisContainer α

/-- `MongoDBHandler.ensure_analysis_container` (`mongodb_handler.py` lines
160-190) on a record that exists: dispatches on the shape of
`analyze_features` (a dict bearing a `runs` key is merged, anything else is
wrapped), and when an update is needed persists the normalised container
back onto the record and unsets a non-`None` top-level
`analysis_summary`.  Returns the container together with the updated
record. -/
def ensureAnalysisContainer {α : Type} (rec : RecordView α) :
    Container α × RecordView α :=
  let result : Container α × Bool :=
    match rec.analyze_features with
    | .dict c => if c.runs.isSome then mergeContainerDefaults c
        else (wrapLegacyAnalyzeFeatures rec (.dict c), true)
    | v => (wrapLegacyAnalyzeFeatures rec v, true)
  if result.2 then
    (result.1,
     { rec with
        analyze_features := .dict result.1.toRaw
        analysis_summary := none })
  else (result.1, rec)

/-! ## Step 2: LEAF feature extraction (`processors/step2_leaf.py`) -/

/-- `LEAF_CONFIG` from `analysis_service/config.py` (lines 41-60). -/
structure LeafConfig where
  n_filters : ℕ
  sample_rate : ℕ
  window_len : ℚ
  window_stride : ℚ
  pcen_compression : Bool
  init_min_freq : ℚ
  init_max_freq : ℚ
  batch_size : ℕ
  num_workers : ℕ
  feature_dim_expected : ℕ
  normalize_features : Bool
deriving Repr, DecidableEq

/-- The configured values of `LEAF_CONFIG` (`device`/`feature_dtype` are
string constants the embedding does not consume). -/
def LEAF_CONFIG : LeafConfig :=
  { n_filters := 40
    sample_rate := 16000
    window_len := 25
    window_stride := 10
    pcen_compression := true
    init_min_freq := 60
    init_max_freq := 8000
    batch_size := 32
    num_workers := 4
    feature_dim_expected := 40
    normalize_features := false }

/-- The environment a feature-extraction run observes about the audio file:
how `librosa.load` presents the file and what the LEAF frontend produces.
The loaded array for a segment window has `segSamples seg` samples;
`isMono` is `ndim == 1` after load; `loadRaises` / `leafRaises` model the
exception paths of `_load_audio_segment` / `_extract_single_segment`;
`leafModelOut seg` is `features_np` after the dimension handling, when the
forward pass succeeds. -/
structure AudioEnv where
  isMono : Bool
  srcChannels : ℕ
  segSamples : Segment → ℕ
  loadRaises : Segment → Bool
  leafRaises : Segment → Bool
  leafModelOut : Segment → List ℚ

/-- `LEAFFeatureExtractor._load_audio_segment` (`step2_leaf.py` lines
133-172): `none` when librosa raises, when a mono file is asked for a
channel other than 0, or when the channel index is at least the channel
count; otherwise the (length of the) loaded 1-D slice. -/
def loadAudioSegment (env : AudioEnv) (seg : Segment) : Option ℕ :=
  if env.loadRaises seg then none
  else if env.isMono then
    if seg.channel ≠ 0 then none else some (env.segSamples seg)
  else
    if env.srcChannels ≤ seg.channel then none else some (env.segSamples seg)

/-- `LEAFFeatureExtractor._extract_single_segment` (`step2_leaf.py` lines
173-210): `none` for a clip shorter than `int(sample_rate * 0.025)`
samples (25 ms) or when the forward pass raises; otherwise the processed
feature vector. -/
def extractSingleSegment (cfg : LeafConfig) (env : AudioEnv) (seg : Segment)
    (len : ℕ) : Option (List ℚ) :=
  let minSamples := (⌊(cfg.sample_rate : ℚ) * (25/1000)⌋).toNat
  if len < minSamples then none
  else if env.leafRaises seg then none
  else some (env.leafModelOut seg)

/-- The per-segment body of `LEAFFeatureExtractor._extract_batch`
(`step2_leaf.py` lines 87-131): any failure (load failure, short clip,
raised exception) degrades to the `n_filters`-element zero vector. -/
def extractBatchOne (cfg : LeafConfig) (env : AudioEnv) (seg : Segment) : List ℚ :=
  match loadAudioSegment env seg with
  | none => List.replicate cfg.n_filters 0
  | some len =>
    match extractSingleSegment cfg env seg len with
    | none => List.replicate cfg.n_filters 0
    | some v => v

/-- `LEAFFeatureExtractor._extract_batch` (`step2_leaf.py` lines 87-131):
the append loop over one batch of segments. -/
def extractBatch (cfg : LeafConfig) (env : AudioEnv) (segs : List Segment) : List (List ℚ) :=
  segs.map (extractBatchOne cfg env)

/-- The slices `segments[i:i + batch_size]` for `i in
range(0, len(segments), batch_size)` (`step2_leaf.py` lines 75-78),
with fuel bounding the iteration count (`l.length` iterations suffice for
`bs ≥ 1`). -/
def chunkListAux {β : Type} (bs : ℕ) : ℕ → List β → List (List β)
  | 0, _ => []
  | _, [] => []
  | fuel + 1, l => l.take bs :: chunkListAux bs fuel (l.drop bs)

/-- Batch decomposition of a list into `bs`-sized chunks. -/
def chunkList {β : Type} (bs : ℕ) (l : List β) : List (List β) :=
  chunkListAux bs l.length l

/-- `LEAFFeatureExtractor.extract_features` (`step2_leaf.py` lines 54-86):
early-out on an empty segment list, then batch-wise extension of the
feature list. -/
def extractFeatures (cfg : LeafConfig) (env : AudioEnv) (segments : List Segment) :
    List (List ℚ) :=
  if segments.isEmpty then []
  else ((chunkList cfg.batch_size segments).map (extractBatch cfg env)).flatten

/-! ## Recording-document state and persistence operations
(`utils/mongodb_handler.py`, `analysis_pipeline.py`)

`RecordDoc` models the top-level progress fields each `update_one` `$set`s;
the `$push`-ed step audit entries are modelled separately where a claim
needs them.  Timestamps (`updated_at`, `processing_started_at`, ...) are
not observed by any claim and are omitted. -/

/-- The value of a document field that Mongo's `{'$in': [..., None]}`
filters distinguish: a string, an explicit null, or a missing field. -/
inductive StatusVal
  | missing
  | null
  | str (s : String)
deriving Repr, DecidableEq

/-- The summary dict `save_classification_results` writes
(`mongodb_handler.py` lines 576-584). -/
structure SummaryDoc where
  final_prediction : String
  total_segments : ℕ
  normal_count : ℕ
  abnormal_count : ℕ
  unknown_count : ℕ
  average_confidence : ℚ
  method : String
deriving Repr, DecidableEq

/-- Top-level progress fields of one recording document. -/
structure RecordDoc where
  currentStep : Option ℤ
  analysisStatus : StatusVal
  errorMessage : Option String
  analysisSummary : Option SummaryDoc
deriving Repr, DecidableEq

/-- The filter of `try_claim_record`'s `update_one` (`mongodb_handler.py`
lines 260-264): `current_step` equal to 0 and `analysis_status` in
`['pending', None]`; in Mongo the `None` member matches both an explicit
null and a missing field. -/
def claimFilterMatches (d : RecordDoc) : Prop :=
  d.currentStep = some 0 ∧
    (d.analysisStatus = .str "pending" ∨ d.analysisStatus = .null ∨
      d.analysisStatus = .missing)

instance (d : RecordDoc) : Decidable (claimFilterMatches d) := by
  unfold claimFilterMatches; exact inferInstance

/-- `MongoDBHandler.try_claim_record` (`mongodb_handler.py` lines 251-281):
a single conditional update that sets `current_step = 1` and
`analysis_status = 'processing'` on the matching document; the returned
boolean is `modified_count > 0` (a matching document always changes, since
it moves from step 0 to step 1). -/
def tryClaimRecord (d : RecordDoc) : Bool × RecordDoc :=
  if claimFilterMatches d then
    (true, { d with currentStep := some 1, analysisStatus := .str "processing" })
  else (false, d)

/-- `n` claim attempts against the same document, serialised in some order
(Mongo executes single-document updates atomically, so any interleaving of
`n` concurrent `try_claim_record` calls is equivalent to a sequence). -/
def claimAttemptsList : ℕ → RecordDoc → List Bool
  | 0, _ => []
  | n + 1, d =>
    let r := tryClaimRecord d
    r.1 :: claimAttemptsList n r.2

/-- The claim gate of `AnalysisPipeline.process_record`
(`analysis_pipeline.py` lines 70-74): a failed claim logs and returns
`True` (benign early success) without running any pipeline step; a
successful claim continues with the remainder of `process_record`,
abstracted as `rest` returning (success, final document, number of
pipeline steps executed). -/
def processRecordClaimGate (d : RecordDoc)
    (rest : RecordDoc → Bool × RecordDoc × ℕ) : Bool × RecordDoc × ℕ :=
  let r := tryClaimRecord d
  if r.1 then rest r.2 else (true, r.2, 0)

/-- `MongoDBHandler.update_record_step` (`mongodb_handler.py` lines
297-349), `$set` part: `current_step`, `analysis_status`, and
`error_message` when one is given (a falsy `error_message` leaves the
field untouched). -/
def updateRecordStepSet (step : ℤ) (status : String) (err : Option String)
    (d : RecordDoc) : RecordDoc :=
  { d with
      currentStep := some step
      analysisStatus := .str status
      errorMessage := match err with | some m => some m | none => d.errorMessage }

/-- `MongoDBHandler.start_analysis_run` (`mongodb_handler.py` lines
192-249), `$set` part on the progress fields: `analysis_status =
'processing'` and `current_step = 0` regardless of the previous value. -/
def startAnalysisRunSet (d : RecordDoc) : RecordDoc :=
  { d with currentStep := some 0, analysisStatus := .str "processing" }

/-- `MongoDBHandler.save_conversion_results` (`mongodb_handler.py` lines
364-422), `$set` part: `current_step = 0`, `analysis_status =
'converted'`. -/
def saveConversionResultsSet (d : RecordDoc) : RecordDoc :=
  { d with currentStep := some 0, analysisStatus := .str "converted" }

/-- `MongoDBHandler.save_slice_results` (`mongodb_handler.py` lines
424-481), `$set` part: `current_step = 1`, `analysis_status = 'sliced'`. -/
def saveSliceResultsSet (d : RecordDoc) : RecordDoc :=
  { d with currentStep := some 1, analysisStatus := .str "sliced" }

/-- `MongoDBHandler.save_leaf_features` (`mongodb_handler.py` lines
483-543), `$set` part: `current_step = 2`, `analysis_status =
'features_extracted'`. -/
def saveLeafFeaturesSet (d : RecordDoc) : RecordDoc :=
  { d with currentStep := some 2, analysisStatus := .str "features_extracted" }

/-- The `processor_metadata` dict as `save_classification_results` reads it
(`mongodb_handler.py` lines 573-584): every key optional. -/
structure MetadataDict where
  final_prediction : Option String
  total_segments : Option ℕ
  normal_count : Option ℕ
  abnormal_count : Option ℕ
  unknown_count : Option ℕ
  average_confidence : Option ℚ
  method : Option String
deriving Repr, DecidableEq

/-- The empty dict `{}` viewed through those keys. -/
def emptyMetadata : MetadataDict :=
  { final_prediction := none, total_segments := none, normal_count := none,
    abnormal_count := none, unknown_count := none, average_confidence := none,
    method := none }

/-- The `classification_results` argument of `save_classification_results`
viewed through every key the function (or its callers) may read; each is
optional, dict-valued keys model absence as `none`. -/
structure ClassificationResultsDict where
  features_data : Option (List Prediction)
  processor_metadata : Option MetadataDict
  predictions : Option (List Prediction)
  summary : Option ClassSummary
  method : Option String
deriving Repr, DecidableEq

/-- The dict `classify` returns, reshaped into the key space
`save_classification_results` reads: it carries `predictions`, `summary`
and `method` and has neither a `features_data` nor a `processor_metadata`
key. -/
def ClassifyReturn.toResultsDict (r : ClassifyReturn) : ClassificationResultsDict :=
  { features_data := none
    processor_metadata := none
    predictions := some r.predictions
    summary := some r.summary
    method := some r.method }

/-- The classification Step dict `save_classification_results` `$push`es
(`mongodb_handler.py` lines 557-567). -/
structure ClassifyStepDoc where
  features_step : ℕ
  features_state : String
  features_name : String
  features_data : List Prediction
  processor_metadata : MetadataDict
deriving Repr, DecidableEq

/-- The Step built by `save_classification_results` from its argument:
`features_data` and `processor_metadata` default to `[]` / `{}` when the
keys are absent. -/
def buildClassifyStep (cr : ClassificationResultsDict) : ClassifyStepDoc :=
  { features_step := 3
    features_state := "completed"
    features_name := "Classification"
    features_data := cr.features_data.getD []
    processor_metadata := cr.processor_metadata.getD emptyMetadata }

/-- The summary `save_classification_results` extracts from
`processor_metadata` (`mongodb_handler.py` lines 573-584), with its
defaults. -/
def buildClassificationSummary (cr : ClassificationResultsDict) : SummaryDoc :=
  let pm := cr.processor_metadata.getD emptyMetadata
  { final_prediction := pm.final_prediction.getD "unknown"
    total_segments := pm.total_segments.getD 0
    normal_count := pm.normal_count.getD 0
    abnormal_count := pm.abnormal_count.getD 0
    unknown_count := pm.unknown_count.getD 0
    average_confidence := pm.average_confidence.getD 0
    method := pm.method.getD "unknown" }

/-- `MongoDBHandler.save_classification_results` (`mongodb_handler.py`
lines 545-630) on its legacy path (no `analysis_id`, the one the canonical
pipeline takes): `$push`es the classification Step onto `analyze_features`
(returned second) and `$set`s `current_step = 4`, `analysis_status =
'completed'` and the extracted `analysis_summary`. -/
def saveClassificationResults (cr : ClassificationResultsDict) (d : RecordDoc) :
    RecordDoc × ClassifyStepDoc :=
  ({ d with
      currentStep := some 4
      analysisStatus := .str "completed"
      analysisSummary := some (buildClassificationSummary cr) },
   buildClassifyStep cr)

/-- `$set` fields of the same update, as one `RecordDoc → RecordDoc`
operation (used for step-ordering statements). -/
def saveClassificationResultsSet (d : RecordDoc) : RecordDoc :=
  (saveClassificationResults
    { features_data := none, processor_metadata := none, predictions := none,
      summary := none, method := none } d).1

/-- The `current_step` values written by a sequence of document
operations, in order. -/
def stepTrace : RecordDoc → List (RecordDoc → RecordDoc) → List (Option ℤ)
  | _, [] => []
  | d, op :: rest => (op d).currentStep :: stepTrace (op d) rest

/-- The document operations `process_record` performs, in order, on the
no-conversion path (`analysis_pipeline.py` lines 70-124, each
`_execute_stepN` marking the step `processing` then saving): claim, step 1
mark + save, step 2 mark + save, step 3 mark + classification save. -/
def pipelineOpsNoConversion : List (RecordDoc → RecordDoc) :=
  [ fun d => (tryClaimRecord d).2
  , updateRecordStepSet 1 "processing" none
  , saveSliceResultsSet
  , updateRecordStepSet 2 "processing" none
  , saveLeafFeaturesSet
  , updateRecordStepSet 3 "processing" none
  , saveClassificationResultsSet ]

/-- `op` never writes a `current_step` smaller than the one the document
held — the reading of the `current_step only advances` invariant for a
single persistence operation. -/
def neverLowersStep (op : RecordDoc → RecordDoc) : Prop :=
  ∀ (d : RecordDoc) (v w : ℤ),
    d.currentStep = some v → (op d).currentStep = some w → v ≤ w

/-- A freshly claimed document: `try_claim_record` has set it to step 1. -/
def claimedDoc : RecordDoc :=
  { currentStep := some 1
    analysisStatus := .str "processing"
    errorMessage := none
    analysisSummary := none }

/-- A completed document sitting at `current_step = 4`. -/
def completedDoc : RecordDoc :=
  { currentStep := some 4
    analysisStatus := .str "completed"
    errorMessage := none
    analysisSummary := none }

/-! ## Step 1 execution in the pipeline (`analysis_pipeline.py`)

Python resolves call arity at run time, so the embedding makes it
explicit: `_execute_step1` passes two positional arguments to
`AudioSlicer.slice_audio`, whose signature accepts one. -/

/-- Parameters `AudioSlicer.slice_audio` accepts besides `self`
(`step1_slicer.py` line 20: `def slice_audio(self, filepath)`). -/
def sliceAudioParamCount : ℕ := 1

/-- Positional arguments `_execute_step1` passes to `slice_audio`
(`analysis_pipeline.py` line 304: `slice_audio(filepath, target_channels)`,
excluding `self`). -/
def executeStep1ArgCount : ℕ := 2

/-- `AnalysisPipeline._execute_step1` (`analysis_pipeline.py` lines
286-325) with Python's dynamic call semantics explicit.  It marks step 1
`processing`, then calls `slice_audio(filepath, target_channels)`; if the
argument count does not match the callee's parameter count the call raises
`TypeError`, the surrounding `except` fires, `_mark_error(..., step=1)`
runs, and the method returns `False`.  Only when the arities matched would
the slicing itself (which ignores `targetChannels`: `slice_audio` has no
such parameter) and the empty-result check run. -/
def executeStep1 (targetChannels : List ℕ) (numChannels samples : ℕ)
    (d : RecordDoc) : Bool × RecordDoc :=
  let d1 := updateRecordStepSet 1 "processing" none d
  if executeStep1ArgCount ≠ sliceAudioParamCount then
    (false, updateRecordStepSet 1 "error" (some "Step 1 exception: TypeError") d1)
  else
    let segments := performSlicing AUDIO_CONFIG numChannels samples AUDIO_CONFIG.sample_rate
    if segments.isEmpty then
      (false, updateRecordStepSet 1 "error" (some "slicing failed or no valid slices") d1)
    else (true, saveSliceResultsSet d1)

/-! ## Batch deletion CLI (`batch_delete/batch_delete.py`) -/

/-- `DeleteConfig.SAFETY_CONFIG` (`batch_delete_config.py` lines 71-77). -/
structure SafetyConfig where
  require_confirmation : Bool
  max_delete_count : ℕ
  preview_sample_size : ℕ
deriving Repr, DecidableEq

/-- The configured values of `SAFETY_CONFIG` (`max_delete_count = 0` means
no ceiling). -/
def SAFETY_CONFIG : SafetyConfig :=
  { require_confirmation := true, max_delete_count := 0, preview_sample_size := 10 }

/-- `DeleteConfig.DELETE_BEHAVIOR` (`batch_delete_config.py` lines 46-69),
the fields `execute_deletion` reads. -/
structure DeleteBehavior where
  delete_gridfs_files : Bool
  soft_delete : Bool
  backup_before_delete : Bool
  batch_size : ℕ
  show_progress : Bool
deriving Repr, DecidableEq

/-- The configured values of `DELETE_BEHAVIOR`. -/
def DELETE_BEHAVIOR : DeleteBehavior :=
  { delete_gridfs_files := true, soft_delete := false, backup_before_delete := true,
    batch_size := 100, show_progress := true }

/-- Observable effects of one `BatchDeleteCLI.execute_deletion` call
(`batch_delete.py` lines 341-399). -/
structure ExecOutcome where
  refusedOverCeiling : Bool
  promptShown : Bool
  backupAttempted : Bool
  recordsDeleted : ℕ
deriving Repr, DecidableEq

/-- `BatchDeleteCLI.execute_deletion` (`batch_delete.py` lines 341-399):
count the matching records; return if none; refuse (before any prompt,
backup or delete) when a positive `max_delete_count` ceiling is exceeded;
then confirmation prompt (cancel unless the operator types `DELETE`),
optional backup (abort deletion if it fails), and the deletion itself
(`delete_records` removes every matching record). -/
def executeDeletion (safety : SafetyConfig) (behavior : DeleteBehavior)
    (count : ℕ) (confirmInput : String) (backupOk : Bool) : ExecOutcome :=
  if count = 0 then
    { refusedOverCeiling := false, promptShown := false, backupAttempted := false,
      recordsDeleted := 0 }
  else if 0 < safety.max_delete_count ∧ safety.max_delete_count < count then
    { refusedOverCeiling := true, promptShown := false, backupAttempted := false,
      recordsDeleted := 0 }
  else if safety.require_confirmation ∧ confirmInput ≠ "DELETE" then
    { refusedOverCeiling := false, promptShown := true, backupAttempted := false,
      recordsDeleted := 0 }
  else if behavior.backup_before_delete ∧ backupOk = false then
    { refusedOverCeiling := false, promptShown := safety.require_confirmation,
      backupAttempted := true, recordsDeleted := 0 }
  else
    { refusedOverCeiling := false, promptShown := safety.require_confirmation,
      backupAttempted := behavior.backup_before_delete, recordsDeleted := count }

/-- The prediction list of the worked example in the spec: labels
`[normal, normal, abnormal, unknown]` with confidences 0.9, 0.8, 0.7, 0. -/
def examplePredictions : List Prediction :=
  [ { segment_id := 1, prediction := "normal", confidence := some (9/10),
      errorMsg := none, methodTag := some "random" },
    { segment_id := 2, prediction := "normal", confidence := some (8/10),
      errorMsg := none, methodTag := some "random" },
    { segment_id := 3, prediction := "abnormal", confidence := some (7/10),
      errorMsg := none, methodTag := some "random" },
    { segment_id := 4, prediction := "unknown", confidence := some 0,
      errorMsg := some "invalid feature", methodTag := none } ]

/-- What C4 asserts of one emitted prediction, relative to its input
segment: a missing feature vector yields the `unknown`/0/error dict;
otherwise the prediction is a `_random_classify` output for some pair of
unit draws — a Bernoulli trial against the configured normal probability —
whose confidence lies in [0.6, 0.95]. -/
def classifiedAs (cfg : ClassificationConfig) (fd : FeatureData) (p : Prediction) : Prop :=
  match fd.feature_vector with
  | none => p.prediction = "unknown" ∧ p.confidence = some 0 ∧
      p.errorMsg = some "invalid feature"
  | some _ => ∃ r1 r2 : ℚ, (0 ≤ r2 ∧ r2 < 1) ∧ p = randomClassify cfg fd r1 r2
      ∧ (p.prediction = if r1 < cfg.normal_probability then "normal" else "abnormal")
      ∧ ∃ c, p.confidence = some c ∧ 6/10 ≤ c ∧ c ≤ 95/100

/-- A concrete record with a legacy two-step `analyze_features` array. -/
def legacyExampleRecord : RecordView ℕ :=
  { AnalyzeUUID := "u-1", analysis_summary := some [("k", "v")], created_at := some 5,
    processing_started_at := none, updated_at := some 9, error_message := none,
    analyze_features := .steps [7, 8] }

/-! ## Theorems -/

theorem sliceSamples_eval : ((⌊(16/100 : ℚ) * ((16000 : ℕ) : ℚ)⌋).toNat) = 2560 := by
  norm_num; rfl

theorem intervalSamples_eval : ((⌊(20/100 : ℚ) * ((16000 : ℕ) : ℚ)⌋).toNat) = 3200 := by
  norm_num; rfl

theorem performSlicing_channels (cs : List ℕ) :
    performSlicing { AUDIO_CONFIG with channels := cs } 1 16000 16000
      = ((if cs = [] then List.range 1 else cs).map fun c =>
          if 1 ≤ c then []
          else sliceLoop (5/100) 16000 c 16000 2560 3200 7 0 1).flatten := by
  simp only [performSlicing, AUDIO_CONFIG, sliceSamples_eval, intervalSamples_eval]

theorem channel_slices (c : ℕ) :
    (if 1 ≤ c then ([] : List Segment)
     else sliceLoop (5/100) 16000 c 16000 2560 3200 7 0 1)
      = if c < 1 then fiveSegments c else [] := by
  match c with
  | 0 =>
    simp only [Nat.not_succ_le_zero, if_neg, Nat.zero_lt_one, if_pos, Nat.le_zero]
    norm_num [sliceLoop, fiveSegments, round6, round3, round_eq]
  | c + 1 => simp

theorem map_channels_flatten (l : List ℕ) :
    (l.map fun c =>
        if 1 ≤ c then ([] : List Segment)
        else sliceLoop (5/100) 16000 c 16000 2560 3200 7 0 1).flatten
      = ((l.filter (· < 1)).map fiveSegments).flatten := by
  induction l with
  | nil => rfl
  | cons c rest ih =>
    simp only [List.map_cons, List.flatten_cons, List.filter_cons]
    rw [channel_slices]
    by_cases h : c < 1
    · simp only [if_pos h, decide_eq_true_eq, h, if_true, List.map_cons,
        List.flatten_cons, ih]
    · simp only [if_neg h, decide_eq_true_eq, h, if_false, List.nil_append, ih]

/-- C2: with `slice_duration = 0.16 s`, `slice_interval = 0.20 s`,
`min_segment_duration = 0.05 s` and `sample_rate = 16000`, slicing a
1.0-second clip produces, for every configured channel list, exactly the
five segments `fiveSegments c` for each in-range processed channel `c`
(`start` values 0, 0.2, 0.4, 0.6, 0.8, each `end = start + 0.16`, `selec`
numbered from 1 independently per channel, `bottom_freq = 0.002`,
`top_freq = 8.0` on every segment); in particular a 2-channel 1.0-second
clip under the shipped `AUDIO_CONFIG` (channels `[1]`) yields exactly
`fiveSegments 1`, and processing both channels of a 2-channel clip yields
the two five-segment groups with independent `selec` numbering. -/
theorem c2_slicing_five_segments (cs : List ℕ) :
    performSlicing { AUDIO_CONFIG with channels := cs } 1 16000 16000
        = (((if cs = [] then List.range 1 else cs).filter (· < 1)).map
            fiveSegments).flatten
      ∧ performSlicing AUDIO_CONFIG 2 16000 16000 = fiveSegments 1
      ∧ performSlicing { AUDIO_CONFIG with channels := [0, 1] } 2 16000 16000
          = fiveSegments 0 ++ fiveSegments 1 := by
  refine ⟨(performSlicing_channels cs).trans (map_channels_flatten _), ?_, ?_⟩
  · simp only [performSlicing, AUDIO_CONFIG, sliceSamples_eval, intervalSamples_eval]
    norm_num [sliceLoop, fiveSegments, round6, round3, round_eq]
  · simp only [performSlicing, AUDIO_CONFIG, sliceSamples_eval, intervalSamples_eval]
    norm_num [sliceLoop, fiveSegments, round6, round3, round_eq]
    simp [List.flatten]

/-- C3 counterexample: on a non-empty, all-`unknown` prediction list the
summary's `final_prediction` is `uncertain` (the 0–0 normal/abnormal tie),
not `unknown` as claimed; `unknown` is produced only for an empty
prediction list. -/
theorem c3_counterexample_all_unknown :
    (calculateSummary [{ segment_id := -1, prediction := "unknown",
                         confidence := some 0, errorMsg := some "invalid feature",
                         methodTag := none }]).final_prediction = "uncertain"
    ∧ (calculateSummary [{ segment_id := -1, prediction := "unknown",
                           confidence := some 0, errorMsg := some "invalid feature",
                           methodTag := none }]).final_prediction ≠ "unknown" := by
  constructor <;> decide

/-- C3 (amended): the classification summary reports the counts of
`normal`, `abnormal` and `unknown` labels, their percentages of the total,
the mean confidence over predictions that carry one, and a
`final_prediction` decided by simple majority between normal and abnormal;
for `[normal, normal, abnormal, unknown]` (confidences 0.9, 0.8, 0.7, 0)
it reports `total=4, normal_count=2, abnormal_count=1, unknown_count=1,
normal_percentage=50.0, abnormal_percentage=25.0, final_prediction=normal`
with mean confidence 0.6; a tie between normal and abnormal yields
`uncertain` — including every non-empty all-unknown prediction list, whose
normal and abnormal counts are both 0 — and only an *empty* prediction
list yields `unknown`. -/
theorem c3_summary_amended :
    calculateSummary examplePredictions =
      { total_segments := 4, normal_count := 2, abnormal_count := 1,
        unknown_count := 1, normal_percentage := 50, abnormal_percentage := 25,
        final_prediction := "normal", average_confidence := some (3/5) }
    ∧ (∀ ps : List Prediction, ps ≠ [] →
        ps.countP (·.prediction = "normal") = ps.countP (·.prediction = "abnormal") →
        (calculateSummary ps).final_prediction = "uncertain")
    ∧ (∀ ps : List Prediction, ps ≠ [] →
        ps.countP (·.prediction = "abnormal") < ps.countP (·.prediction = "normal") →
        (calculateSummary ps).final_prediction = "normal")
    ∧ (∀ ps : List Prediction, ps ≠ [] →
        ps.countP (·.prediction = "normal") < ps.countP (·.prediction = "abnormal") →
        (calculateSummary ps).final_prediction = "abnormal")
    ∧ (calculateSummary (List.replicate 3
        { segment_id := -1, prediction := "unknown", confidence := some 0,
          errorMsg := some "invalid feature", methodTag := none })).final_prediction
        = "uncertain"
    ∧ (calculateSummary []).final_prediction = "unknown" := by
  refine ⟨?_, ?_, ?_, ?_, by decide, by decide⟩
  · simp only [calculateSummary, examplePredictions]
    norm_num +decide [List.countP, List.countP.go, npMean, round2, round3, round_eq,
      List.filterMap]
  · intro ps hne h
    have hlen : ¬ ps.length = 0 := by simpa [List.length_eq_zero] using hne
    simp [calculateSummary, hlen, h]
  · intro ps hne h
    have hlen : ¬ ps.length = 0 := by simpa [List.length_eq_zero] using hne
    simp [calculateSummary, hlen, Nat.lt_asymm h, h, Nat.lt_irrefl]
  · intro ps hne h
    have hlen : ¬ ps.length = 0 := by simpa [List.length_eq_zero] using hne
    simp [calculateSummary, hlen, h]

/-- Witness for `c3_summary_amended`: the tie case evaluated on the
concrete two-element list `[normal, abnormal]`. -/
theorem c3_summary_amended_witness :
    (calculateSummary
      [ { segment_id := 1, prediction := "normal", confidence := some (9/10),
          errorMsg := none, methodTag := some "random" },
        { segment_id := 2, prediction := "abnormal", confidence := some (8/10),
          errorMsg := none, methodTag := some "random" } ]).final_prediction
      = "uncertain" :=
  c3_summary_amended.2.1 _ (by simp) (by decide)

theorem classifyLoop_method (m : String) (draws : ℕ → ℚ × ℚ)
    (fds : List FeatureData) : ∀ k : ℕ,
    classifyLoop { CLASSIFICATION_CONFIG with method := m } draws fds k
      = classifyLoop CLASSIFICATION_CONFIG draws fds k := by
  induction fds with
  | nil => intro k; rfl
  | cons fd rest ih =>
    intro k
    cases hf : fd.feature_vector <;>
      simp [classifyLoop, hf, ih, randomClassify]

theorem classifyLoop_spec (cfg : ClassificationConfig) (draws : ℕ → ℚ × ℚ)
    (hr : ∀ k, 0 ≤ (draws k).2 ∧ (draws k).2 < 1) :
    ∀ (fds : List FeatureData) (k : ℕ),
      List.Forall₂ (classifiedAs cfg) fds (classifyLoop cfg draws fds k) := by
  intro fds
  induction fds with
  | nil => intro k; exact List.Forall₂.nil
  | cons fd rest ih =>
    intro k
    cases hf : fd.feature_vector with
    | none =>
      simp only [classifyLoop, hf]
      exact List.Forall₂.cons
        (by simp [classifiedAs, hf, invalidFeaturePrediction]) (ih k)
    | some v =>
      simp only [classifyLoop, hf, ite_self]
      refine List.Forall₂.cons ?_ (ih (k + 1))
      simp only [classifiedAs, hf]
      refine ⟨(draws k).1, (draws k).2, hr k, rfl, rfl,
        ⟨6/10 + (draws k).2 * (95/100 - 6/10), rfl, ?_, ?_⟩⟩
      · have h := (hr k).1
        nlinarith
      · have h := (hr k).2
        nlinarith

/-- C4: for every segment handed to `classify`, a missing feature vector
yields `{prediction: unknown, confidence: 0, error}`; otherwise —
regardless of the configured method name (the shipped one is `rf_model`) —
the emitted label comes from a Bernoulli trial against the configured
normal probability 0.7 (`normal` exactly when the unit draw is below it)
with confidence in [0.6, 0.95]; one prediction per segment, and no model
input appears anywhere: predictions depend only on the segments and the
random draws. -/
theorem c4_classify_contract (m : String) (draws : ℕ → ℚ × ℚ)
    (hr : ∀ k, 0 ≤ (draws k).2 ∧ (draws k).2 < 1) (fds : List FeatureData) :
    CLASSIFICATION_CONFIG.method = "rf_model"
    ∧ CLASSIFICATION_CONFIG.normal_probability = 7/10
    ∧ (classify { CLASSIFICATION_CONFIG with method := m } draws fds).predictions
        = (classify CLASSIFICATION_CONFIG draws fds).predictions
    ∧ (classify { CLASSIFICATION_CONFIG with method := m } draws fds).predictions.length
        = fds.length
    ∧ List.Forall₂ (classifiedAs CLASSIFICATION_CONFIG) fds
        (classify { CLASSIFICATION_CONFIG with method := m } draws fds).predictions := by
  have hm : (classify { CLASSIFICATION_CONFIG with method := m } draws fds).predictions
      = (classify CLASSIFICATION_CONFIG draws fds).predictions := by
    simp only [classify]
    exact classifyLoop_method m draws fds 0
  have hs : List.Forall₂ (classifiedAs CLASSIFICATION_CONFIG) fds
      (classify { CLASSIFICATION_CONFIG with method := m } draws fds).predictions := by
    rw [hm]
    exact classifyLoop_spec CLASSIFICATION_CONFIG draws hr fds 0
  exact ⟨rfl, rfl, hm, hs.length_eq.symm, hs⟩

/-- Witness for `c4_classify_contract`: the contract applied to a
one-missing-one-present segment list with the constant draw 1/2. -/
theorem c4_classify_contract_witness :
    (∀ k : ℕ, 0 ≤ ((fun _ : ℕ => ((1:ℚ)/2, (1:ℚ)/2)) k).2
        ∧ ((fun _ : ℕ => ((1:ℚ)/2, (1:ℚ)/2)) k).2 < 1)
    ∧ (classify { CLASSIFICATION_CONFIG with method := "rf_model" }
        (fun _ => (1/2, 1/2))
        [ { segment_id := some 3, feature_vector := none },
          { segment_id := some 4, feature_vector := some [1, 2] } ]).predictions.length
        = 2 := by
  have hr : ∀ k : ℕ, 0 ≤ ((fun _ : ℕ => ((1:ℚ)/2, (1:ℚ)/2)) k).2
      ∧ ((fun _ : ℕ => ((1:ℚ)/2, (1:ℚ)/2)) k).2 < 1 := fun _ => by norm_num
  exact ⟨hr, (c4_classify_contract "rf_model" (fun _ => (1/2, 1/2)) hr
    [ { segment_id := some 3, feature_vector := none },
      { segment_id := some 4, feature_vector := some [1, 2] } ]).2.2.2.1⟩

theorem chunkListAux_flatten_map {β γ : Type} (f : β → γ) (bs : ℕ) (hbs : 1 ≤ bs) :
    ∀ (fuel : ℕ) (l : List β), l.length ≤ fuel →
      ((chunkListAux bs fuel l).map (List.map f)).flatten = l.map f := by
  intro fuel
  induction fuel with
  | zero =>
    intro l hl
    have : l = [] := List.length_eq_zero.mp (Nat.le_zero.mp hl)
    subst this; rfl
  | succ n ih =>
    intro l hl
    cases l with
    | nil => rfl
    | cons x xs =>
      simp only [chunkListAux, List.map_cons, List.flatten_cons]
      rw [ih ((x :: xs).drop bs)
        (by simp only [List.length_drop, List.length_cons] at *; omega)]
      rw [List.map_take, List.map_drop, List.take_append_drop]
      simp

theorem extractFeatures_eq_map (cfg : LeafConfig) (env : AudioEnv)
    (hbs : 1 ≤ cfg.batch_size) (segs : List Segment) :
    extractFeatures cfg env segs = segs.map (extractBatchOne cfg env) := by
  unfold extractFeatures chunkList
  by_cases h : segs.isEmpty
  · have : segs = [] := by simpa [List.isEmpty_iff] using h
    simp [this]
  · simp only [h, if_false, Bool.false_eq_true]
    exact chunkListAux_flatten_map (extractBatchOne cfg env) cfg.batch_size hbs
      segs.length segs le_rfl

theorem minSamples_eval : ((⌊((16000 : ℕ) : ℚ) * (25/1000)⌋).toNat) = 400 := by
  norm_num; rfl

/-- C6: `extract_features` returns exactly one vector per input segment,
in input order (it equals the segment-wise map, the 32-wide batching
notwithstanding); a segment whose channel is out of range loads nothing,
and any segment that fails to load — in particular each out-of-range
one — or whose loaded audio has fewer than 400 samples (25 ms at
16 kHz) yields the 40-element all-zero vector; every failure path ends in
that vector rather than an exception, by totality of the definitions. -/
theorem c6_leaf_extraction_contract (env : AudioEnv) (segs : List Segment) :
    extractFeatures LEAF_CONFIG env segs = segs.map (extractBatchOne LEAF_CONFIG env)
    ∧ (extractFeatures LEAF_CONFIG env segs).length = segs.length
    ∧ (∀ seg, (env.isMono = true ∧ seg.channel ≠ 0)
          ∨ (env.isMono = false ∧ env.srcChannels ≤ seg.channel) →
        loadAudioSegment env seg = none)
    ∧ (∀ seg, loadAudioSegment env seg = none →
        extractBatchOne LEAF_CONFIG env seg = List.replicate 40 0)
    ∧ (∀ seg len, loadAudioSegment env seg = some len → len < 400 →
        extractBatchOne LEAF_CONFIG env seg = List.replicate 40 0) := by
  have hmap := extractFeatures_eq_map LEAF_CONFIG env (by norm_num [LEAF_CONFIG]) segs
  refine ⟨hmap, by rw [hmap]; exact List.length_map _ _, ?_, ?_, ?_⟩
  · intro seg h
    rcases h with ⟨hm, hc⟩ | ⟨hm, hc⟩ <;>
      simp [loadAudioSegment, hm, hc]
  · intro seg h
    simp [extractBatchOne, h, LEAF_CONFIG]
  · intro seg len hsome hlt
    simp only [extractBatchOne, hsome, extractSingleSegment, LEAF_CONFIG,
      minSamples_eval, hlt, if_pos]

/-- Witness for `c6_leaf_extraction_contract`: a mono environment where the
single segment asks for channel 1 — out of range — and degrades to the
40-element zero vector. -/
theorem c6_leaf_extraction_contract_witness :
    extractBatchOne LEAF_CONFIG
      { isMono := true, srcChannels := 1, segSamples := fun _ => 2560,
        loadRaises := fun _ => false, leafRaises := fun _ => false,
        leafModelOut := fun _ => [] }
      { selec := 1, channel := 1, start := 0, stop := 16/100,
        bottom_freq := 2/1000, top_freq := 8 }
      = List.replicate 40 0 := by
  have h := c6_leaf_extraction_contract
    { isMono := true, srcChannels := 1, segSamples := fun _ => 2560,
      loadRaises := fun _ => false, leafRaises := fun _ => false,
      leafModelOut := fun _ => [] } []
  exact h.2.2.2.1 _ (h.2.2.1 _ (Or.inl ⟨rfl, by norm_num⟩))

theorem claimAttempts_all_fail (n : ℕ) (d : RecordDoc)
    (h : d.currentStep ≠ some 0) :
    claimAttemptsList n d = List.replicate n false := by
  induction n with
  | zero => rfl
  | succ k ih =>
    have hm : ¬ claimFilterMatches d := fun hc => h hc.1
    simp [claimAttemptsList, tryClaimRecord, hm, ih, List.replicate_succ]

/-- C1: `try_claim_record` succeeds exactly on a document at
`current_step = 0` whose `analysis_status` is `pending` or absent (Mongo's
`None` filter member matches both a null-valued and a missing field), and
then atomically moves it to `current_step = 1`, `analysis_status =
'processing'`; of `n ≥ 1` serialised claim attempts on an unclaimed
document exactly one returns true; and a caller whose claim returns false
takes `process_record`'s early-success exit: result `True`, document
untouched, zero pipeline steps run. -/
theorem c1_claim_exclusivity (d : RecordDoc) :
    ((tryClaimRecord d).1 = true ↔ claimFilterMatches d)
    ∧ ((tryClaimRecord d).1 = true →
        (tryClaimRecord d).2.currentStep = some 1
        ∧ (tryClaimRecord d).2.analysisStatus = .str "processing")
    ∧ (∀ n : ℕ, 1 ≤ n → claimFilterMatches d →
        (claimAttemptsList n d).count true = 1)
    ∧ (∀ rest : RecordDoc → Bool × RecordDoc × ℕ, (tryClaimRecord d).1 = false →
        processRecordClaimGate d rest = (true, d, 0)) := by
  refine ⟨?_, ?_, ?_, ?_⟩
  · by_cases hm : claimFilterMatches d <;> simp [tryClaimRecord, hm]
  · intro h
    by_cases hm : claimFilterMatches d
    · simp [tryClaimRecord, hm]
    · simp [tryClaimRecord, hm] at h
  · intro n hn hm
    cases n with
    | zero => omega
    | succ k =>
      have hstep :
          claimAttemptsList k
              { d with currentStep := some 1, analysisStatus := .str "processing" }
            = List.replicate k false :=
        claimAttempts_all_fail k _ (by simp)
      simp [claimAttemptsList, tryClaimRecord, hm, hstep, List.count_replicate]
  · intro rest h
    by_cases hm : claimFilterMatches d
    · simp [tryClaimRecord, hm] at h
    · simp [processRecordClaimGate, tryClaimRecord, hm]

/-- Witness for `c1_claim_exclusivity`: three serialised attempts on a
fresh pending document — exactly one succeeds. -/
theorem c1_claim_exclusivity_witness :
    claimFilterMatches { currentStep := some 0, analysisStatus := .str "pending",
                         errorMessage := none, analysisSummary := none }
    ∧ (claimAttemptsList 3 { currentStep := some 0, analysisStatus := .str "pending",
                             errorMessage := none, analysisSummary := none }).count true
        = 1 :=
  ⟨by decide,
   (c1_claim_exclusivity _).2.2.1 3 (by norm_num) (by decide)⟩

theorem normalizeRuns_no_op {α : Type} :
    ∀ (rs : List (RunDoc α)), (∀ r ∈ rs, r.run_index ≠ none) →
      ∀ i : ℕ, normalizeRuns rs i = (rs, false) := by
  intro rs
  induction rs with
  | nil => intro _ i; rfl
  | cons r rest ih =>
    intro h i
    have hr : r.run_index ≠ none := h r (List.mem_cons_self r rest)
    have hrest := ih (fun r' hr' => h r' (List.mem_cons_of_mem r hr'))
    cases hidx : r.run_index with
    | none => exact absurd hidx hr
    | some j => simp [normalizeRuns, hidx, hrest]

theorem mergeContainerDefaults_toRaw {α : Type} (c : Container α)
    (hruns : ∀ r ∈ c.runs, r.run_index ≠ none)
    (htot : c.total_runs ≠ 0 ∨ c.runs = [])
    (hidx : c.latest_summary_index ≠ none ∨ c.runs = []) :
    mergeContainerDefaults c.toRaw = (c, false) := by
  have hn := normalizeRuns_no_op c.runs hruns 1
  have ht : ¬ (c.total_runs = 0 ∧ c.runs.isEmpty = false) := by
    rcases htot with h | h
    · exact fun hc => h hc.1
    · simp [h]
  have hi : ¬ (c.latest_summary_index = none ∧ c.runs.isEmpty = false) := by
    rcases hidx with h | h
    · exact fun hc => h hc.1
    · simp [h]
  simp only [mergeContainerDefaults, Container.toRaw]
  simp only [hn]
  simp only [Option.getD_some, Option.isNone_some]
  rw [if_neg ht, if_neg hi]
  rfl

/-- C5: on a record whose `analyze_features` is a non-empty legacy Step
array, `ensure_analysis_container` produces a container holding exactly one
synthetic run, with id `legacy-<AnalyzeUUID>`, `run_index` 1 and the
original Step array as its `steps` (lossless), and persists the upgraded
dict shape back onto the record; running it again on the upgraded record
returns the very same container and record — no second synthetic run. -/
theorem c5_legacy_upgrade_idempotent {α : Type} (rec : RecordView α)
    (x : α) (xs : List α) (hsLegacy : rec.analyze_features = .steps (x :: xs)) :
    ∃ run : RunDoc α,
      (ensureAnalysisContainer rec).1.runs = [run]
      ∧ run.analysis_id = "legacy-" ++ rec.AnalyzeUUID
      ∧ run.run_index = some 1
      ∧ run.steps = x :: xs
      ∧ (ensureAnalysisContainer rec).1.total_runs = 1
      ∧ (ensureAnalysisContainer rec).2.analyze_features
          = .dict (ensureAnalysisContainer rec).1.toRaw
      ∧ ensureAnalysisContainer (ensureAnalysisContainer rec).2
          = ((ensureAnalysisContainer rec).1, (ensureAnalysisContainer rec).2) := by
  have h1 : ensureAnalysisContainer rec
      = (wrapLegacyAnalyzeFeatures rec (.steps (x :: xs)),
         { rec with
             analyze_features :=
               .dict (wrapLegacyAnalyzeFeatures rec (.steps (x :: xs))).toRaw
             analysis_summary := none }) := by
    simp [ensureAnalysisContainer, hsLegacy]
  set c := wrapLegacyAnalyzeFeatures rec (.steps (x :: xs)) with hc
  have hcruns : ∀ r ∈ c.runs, r.run_index ≠ none := by
    intro r hr
    simp [hc, wrapLegacyAnalyzeFeatures] at hr
    simp [hr]
  have hmerge : mergeContainerDefaults c.toRaw = (c, false) :=
    mergeContainerDefaults_toRaw c hcruns
      (Or.inl (by simp [hc, wrapLegacyAnalyzeFeatures]))
      (Or.inl (by simp [hc, wrapLegacyAnalyzeFeatures]))
  refine ⟨{ analysis_id := "legacy-" ++ rec.AnalyzeUUID, run_index := some 1,
            analysis_summary := some (rec.analysis_summary.getD []),
            analysis_context := [("imported_from", "legacy")],
            steps := x :: xs,
            requested_at := rec.created_at,
            started_at := match rec.processing_started_at with
                          | some t => some t
                          | none => rec.created_at,
            completed_at := rec.updated_at,
            error_message := rec.error_message },
    ?_, rfl, rfl, rfl, ?_, ?_, ?_⟩
  · rw [h1]
    rfl
  · rw [h1]
    rfl
  · rw [h1]
  · rw [h1]
    have hsome : (Container.toRaw c).runs.isSome = true := rfl
    simp only [ensureAnalysisContainer, hsome, hmerge, if_true]
    simp

/-- Witness for `c5_legacy_upgrade_idempotent`: the upgrade applied to a
concrete legacy record with steps `[7, 8]`. -/
theorem c5_legacy_upgrade_idempotent_witness :
    (ensureAnalysisContainer legacyExampleRecord).1.total_runs = 1
    ∧ ensureAnalysisContainer (ensureAnalysisContainer legacyExampleRecord).2
        = ((ensureAnalysisContainer legacyExampleRecord).1,
           (ensureAnalysisContainer legacyExampleRecord).2) := by
  obtain ⟨run, h1, h2, h3, h4, h5, h6, h7⟩ :=
    c5_legacy_upgrade_idempotent legacyExampleRecord 7 [8] rfl
  exact ⟨h5, h7⟩

/-- C7 counterexample: `current_step` does not only advance.  On a freshly
claimed document (step 1) the step-0 save `save_conversion_results` writes
`current_step = 0 < 1` — exactly what the canonical conversion path does
right after claiming — and on a completed document (step 4)
`start_analysis_run` likewise writes `current_step = 0 < 4`. -/
theorem c7_counterexample_step_lowered :
    (saveConversionResultsSet claimedDoc).currentStep = some 0
    ∧ claimedDoc.currentStep = some 1
    ∧ (startAnalysisRunSet completedDoc).currentStep = some 0
    ∧ completedDoc.currentStep = some 4
    ∧ ¬ neverLowersStep saveConversionResultsSet
    ∧ ¬ neverLowersStep startAnalysisRunSet := by
  refine ⟨rfl, rfl, rfl, rfl, ?_, ?_⟩
  · intro h
    have := h claimedDoc 1 0 rfl rfl
    omega
  · intro h
    have := h completedDoc 4 0 rfl rfl
    omega

/-- C7 (amended): `current_step` only advances within one pipeline pass —
claiming moves a document from step 0 to step 1 and never lowers the
field, and the canonical no-conversion pipeline writes the nondecreasing
sequence 1, 1, 1, 2, 2, 3, 4 — but the operations that begin a
(re-)analysis at step 0, namely `start_analysis_run` and the step-0
conversion save, reset `current_step` to 0, which is smaller than the
value a claimed or completed document holds. -/
theorem c7_step_monotonicity_amended (d : RecordDoc)
    (hm : claimFilterMatches d) :
    d.currentStep = some 0
    ∧ neverLowersStep (fun d' => (tryClaimRecord d').2)
    ∧ stepTrace d pipelineOpsNoConversion
        = [some 1, some 1, some 1, some 2, some 2, some 3, some 4]
    ∧ List.Chain' (· ≤ ·) ([0, 1, 1, 1, 2, 2, 3, 4] : List ℤ)
    ∧ (startAnalysisRunSet d).currentStep = some 0
    ∧ (saveConversionResultsSet d).currentStep = some 0 := by
  refine ⟨hm.1, ?_, ?_, by simp, rfl, rfl⟩
  · intro d' v w hv hw
    by_cases h : claimFilterMatches d'
    · have h1 : v = 0 := by
        have h0 := h.1
        rw [hv] at h0
        exact Option.some.inj h0
      simp only [tryClaimRecord, if_pos h] at hw
      have h2 : (some 1 : Option ℤ) = some w := hw
      have h3 : w = 1 := (Option.some.inj h2).symm
      omega
    · simp only [tryClaimRecord, if_neg h] at hw
      rw [hv] at hw
      have : v = w := Option.some.inj hw
      omega
  · simp [stepTrace, pipelineOpsNoConversion, tryClaimRecord, hm,
      updateRecordStepSet, saveSliceResultsSet, saveLeafFeaturesSet,
      saveClassificationResultsSet, saveClassificationResults]

/-- Witness for `c7_step_monotonicity_amended`: the pipeline trace on a
concrete pending document. -/
theorem c7_step_monotonicity_amended_witness :
    stepTrace { currentStep := some 0, analysisStatus := .str "pending",
                errorMessage := none, analysisSummary := none }
        pipelineOpsNoConversion
      = [some 1, some 1, some 1, some 2, some 2, some 3, some 4] :=
  (c7_step_monotonicity_amended _ (by decide)).2.2.1

/-- C8 (code bug): `_execute_step1` passes two positional arguments to
`slice_audio`, whose signature takes one, so the call raises `TypeError`
on every recording; the surrounding `except` marks the recording `error`
at step 1 and `_execute_step1` returns `False`.  The spec's described
behaviour — slice the channels named by `target_channel`, else the
configured defaults — is never reached, and `slice_audio` has no
`target_channel` parameter to honour in the first place. -/
theorem c8_step1_arity_mismatch (targetChannels : List ℕ)
    (numChannels samples : ℕ) (d : RecordDoc) :
    executeStep1ArgCount ≠ sliceAudioParamCount
    ∧ (executeStep1 targetChannels numChannels samples d).1 = false
    ∧ (executeStep1 targetChannels numChannels samples d).2.currentStep = some 1
    ∧ (executeStep1 targetChannels numChannels samples d).2.analysisStatus
        = .str "error"
    ∧ (executeStep1 targetChannels numChannels samples d).2.errorMessage
        = some "Step 1 exception: TypeError" := by
  refine ⟨by decide, ?_, ?_, ?_, ?_⟩ <;>
    simp [executeStep1, updateRecordStepSet, executeStep1ArgCount,
      sliceAudioParamCount]

/-- C9: when the configured `max_delete_count` ceiling is positive and the
matched count exceeds it, `execute_deletion` refuses immediately: no
confirmation prompt, no backup attempt, and zero records deleted. -/
theorem c9_delete_ceiling_refusal (safety : SafetyConfig)
    (behavior : DeleteBehavior) (count : ℕ) (confirmInput : String)
    (backupOk : Bool) (hpos : 0 < safety.max_delete_count)
    (hover : safety.max_delete_count < count) :
    executeDeletion safety behavior count confirmInput backupOk
      = { refusedOverCeiling := true, promptShown := false,
          backupAttempted := false, recordsDeleted := 0 } := by
  have hne : ¬ count = 0 := by omega
  simp [executeDeletion, hne, hpos, hover]

/-- Witness for `c9_delete_ceiling_refusal`: ceiling 5, matched count 6,
operator ready to confirm — still refused with nothing deleted. -/
theorem c9_delete_ceiling_refusal_witness :
    executeDeletion
        { require_confirmation := true, max_delete_count := 5,
          preview_sample_size := 10 }
        DELETE_BEHAVIOR 6 "DELETE" true
      = { refusedOverCeiling := true, promptShown := false,
          backupAttempted := false, recordsDeleted := 0 } :=
  c9_delete_ceiling_refusal _ DELETE_BEHAVIOR 6 "DELETE" true
    (by norm_num) (by norm_num)

/-- C10: whatever `classify` returns, its result dict carries only the keys
`predictions`/`summary`/`method`, while `save_classification_results`
reads only `features_data`/`processor_metadata`; the persisted
classification Step therefore always has empty `features_data` and an
empty metadata dict, the written summary is all defaults
(`final_prediction = unknown`, counts 0, `average_confidence = 0`,
`method = unknown`), and the recording is nevertheless marked
`current_step = 4`, `analysis_status = completed`. -/
theorem c10_classification_save_key_mismatch (cfg : ClassificationConfig)
    (draws : ℕ → ℚ × ℚ) (fds : List FeatureData) (d : RecordDoc) :
    (buildClassifyStep ((classify cfg draws fds).toResultsDict)).features_data = []
    ∧ (buildClassifyStep ((classify cfg draws fds).toResultsDict)).processor_metadata
        = emptyMetadata
    ∧ (buildClassifyStep ((classify cfg draws fds).toResultsDict)).features_step = 3
    ∧ buildClassificationSummary ((classify cfg draws fds).toResultsDict)
        = { final_prediction := "unknown", total_segments := 0, normal_count := 0,
            abnormal_count := 0, unknown_count := 0, average_confidence := 0,
            method := "unknown" }
    ∧ (saveClassificationResults ((classify cfg draws fds).toResultsDict) d).1.currentStep
        = some 4
    ∧ (saveClassificationResults ((classify cfg draws fds).toResultsDict) d).1.analysisStatus
        = .str "completed"
    ∧ (saveClassificationResults ((classify cfg draws fds).toResultsDict) d).1.analysisSummary
        = some { final_prediction := "unknown", total_segments := 0, normal_count := 0,
                 abnormal_count := 0, unknown_count := 0, average_confidence := 0,
                 method := "unknown" } :=
  ⟨rfl, rfl, rfl, rfl, rfl, rfl, rfl⟩
